import Mathlib

/-!
Verification development for a CRM backend's dual-source data-convergence
layer (services: company, event-log, announcement, opportunity, contact).

Modelling conventions (shallow embedding of the JavaScript services):

* Store readers are modelled by their results: a primary SQL reader is an
  optional value of type Except String (List row) (none = reader not
  injected, Except.error = the call threw), the sheet reader is an
  Except String (List row).
* Store writers are modelled as always succeeding; every store-level
  write call an operation performs is recorded in a trace list, so
  "no store call is made" is "the trace is empty".  Cache-invalidation
  hooks are fire-and-forget in the source and are not modelled.
* JavaScript string fields of sheet/SQL rows are modelled as String with
  "" standing for both the empty string and an absent (undefined) field,
  matching JS truthiness, except where a service distinguishes presence
  (the company DTO mapper and the link table use Option String, with
  none = undefined and some "" = a present empty string).
* Row indices are integers; a JS row-index field that may be absent is
  an Option Nat (none = undefined).
-/

deriving instance DecidableEq for Except

/-- JS truthiness of an optional string field: undefined, null and ""
are falsy. -/
def optStrTruthy : Option String → Bool
  | none => false
  | some s => s ≠ ""

/-- The JS idiom a.x || a.y || ... || '' over an ordered list of optional
fields: first present non-empty value wins, otherwise ''. -/
def pickStr : List (Option String) → String
  | [] => ""
  | none :: rest => pickStr rest
  | some s :: rest => if s = "" then pickStr rest else s

/-- The safeGet helper of OpportunityService.getOpportunityDetails:
first field value that is not undefined, null or '' (returns undefined,
i.e. none, when every candidate fails). -/
def pickOpt : List (Option String) → Option String
  | [] => none
  | none :: rest => pickOpt rest
  | some s :: rest => if s = "" then pickOpt rest else some s

/-- Whitespace recognised by the model of String.prototype.trim
(ASCII subset of the JS \s class; the repository's data uses none of the
exotic Unicode spaces). -/
def wsCh (c : Char) : Bool :=
  c = ' ' || c = '\t' || c = '\n' || c = '\r'

/-- Model of String.prototype.trim on the character list. -/
def trimList (l : List Char) : List Char :=
  ((l.dropWhile wsCh).reverse.dropWhile wsCh).reverse

/-- Model of String.prototype.trim. -/
def trimStr (s : String) : String := ⟨trimList s.data⟩

/-- ASCII model of String.prototype.toLowerCase (the company names and
keys in this repository are ASCII or CJK; CJK has no case and JS leaves
it unchanged, as does this model). -/
def jsToLower (c : Char) : Char :=
  if 65 ≤ c.toNat ∧ c.toNat ≤ 90 then Char.ofNat (c.toNat + 32) else c

/-- toLowerCase over a character list. -/
def lowerList (l : List Char) : List Char := l.map jsToLower

/-- Character list of the corporate suffix 股份有限公司. -/
def sufFull : List Char := "股份有限公司".data

/-- Character list of the corporate suffix 有限公司. -/
def sufLtd : List Char := "有限公司".data

/-- Character list of the corporate suffix 公司. -/
def sufCo : List Char := "公司".data

/-- Fuel-indexed worker for suffixStrip (the fuel is only a structural
termination device; suffixStrip supplies the list length, which always
suffices because every step shortens the list). -/
def suffixStripF : Nat → List Char → List Char
  | _, [] => []
  | 0, l => l
  | fuel + 1, c :: cs =>
    if sufFull.isPrefixOf (c :: cs) then suffixStripF fuel ((c :: cs).drop 6)
    else if sufLtd.isPrefixOf (c :: cs) then suffixStripF fuel ((c :: cs).drop 4)
    else if sufCo.isPrefixOf (c :: cs) then suffixStripF fuel ((c :: cs).drop 2)
    else c :: suffixStripF fuel cs

/-- Model of .replace(/股份有限公司|有限公司|公司/g, ''): one left-to-right
scan removing each match and continuing after it (the three alternatives
start with pairwise distinct characters, so JS's ordered alternation
and this scan agree). -/
def suffixStrip (l : List Char) : List Char := suffixStripF l.length l

/-- Model of .replace(/\(.*\)/g, ''): the greedy match runs from the
first '(' to the last ')' after it; the remainder holds no further ')'
so the global flag adds no further match.  No '(' with a later ')'
means no match.  (JS's dot does not cross a newline; the single-line
company names this runs on make the behaviours coincide.) -/
def parenStrip (l : List Char) : List Char :=
  match l.drop (l.takeWhile (fun c => c ≠ '(')).length with
  | [] => l
  | _ :: tl =>
    if tl.contains ')' then
      l.takeWhile (fun c => c ≠ '(') ++ (tl.reverse.takeWhile (fun c => c ≠ ')')).reverse
    else l

/-- The normalisation pipeline of CompanyService._normalizeCompanyName
(shared verbatim by OpportunityService._normalizeCompanyName):
toLowerCase, trim, strip corporate suffixes, strip parentheticals, trim. -/
def normList (l : List Char) : List Char :=
  trimList (parenStrip (suffixStrip (trimList (lowerList l))))

/-- CompanyService._normalizeCompanyName: the guard if (!name) return ''
followed by the pipeline. -/
def normalizeCompanyName (s : String) : String :=
  if s = "" then "" else ⟨normList s.data⟩

/-- suffixStrip at the String level (used to state fixed-point
hypotheses). -/
def suffixStripStr (s : String) : String := ⟨suffixStrip s.data⟩

/-- parenStrip at the String level. -/
def parenStripStr (s : String) : String := ⟨parenStrip s.data⟩

/-- ContactService._normalizeKey: String(str).toLowerCase().trim(). -/
def normKey (s : String) : String := trimStr ⟨lowerList s.data⟩

/-- A JS number as far as the event-log row-key logic observes it:
NaN, an integer, or a non-integer number. -/
inductive JNum where
  | nan : JNum
  | int (n : Int) : JNum
  | nonint : JNum
deriving DecidableEq, Repr

/-- Value of a digit list (most significant first). -/
def digitsVal (l : List Char) : Int :=
  l.foldl (fun a c => a * 10 + (Int.ofNat (c.toNat - 48))) 0

/-- Model of the JS Number(string) conversion for the decimal literals
this codebase passes around (trimmed optional sign, digits, optional
fraction; '' converts to 0; hex/exponent forms are not used by the
callers and are out of the model). -/
def jsNumberOfString (s : String) : JNum :=
  let t := trimList s.data
  if t = [] then .int 0
  else
    let (sign, rest) : Int × List Char :=
      match t with
      | '+' :: r => (1, r)
      | '-' :: r => (-1, r)
      | r => (1, r)
    let intPart := rest.takeWhile Char.isDigit
    let rest2 := rest.drop intPart.length
    match rest2 with
    | [] => if intPart = [] then .nan else .int (sign * digitsVal intPart)
    | '.' :: frac =>
      if frac.all Char.isDigit ∧ (intPart ≠ [] ∨ frac ≠ []) then
        if frac.all (fun c => c = '0') then .int (sign * digitsVal intPart)
        else .nonint
      else .nan
    | _ => .nan

/-- The id-or-row-index argument the controllers pass to the event-log
and opportunity update entry points: either a JS number (an integer in
this codebase) or a string. -/
inductive RowKey where
  | int (n : Int) : RowKey
  | str (s : String) : RowKey
deriving DecidableEq, Repr

/-- Number(idOrRowIndex) as the event-log service computes it. -/
def jsNumberOfKey : RowKey → JNum
  | .int n => .int n
  | .str s => jsNumberOfString s

/-- Model of JS parseInt in base 10 (trimmed optional sign then leading
digits, NaN as none); on a number argument parseInt truncates, which on
the integer row keys of this codebase is the identity. -/
def parseIntJs : RowKey → Option Int
  | .int n => some n
  | .str s =>
    let t := trimList s.data
    let (sign, rest) : Int × List Char :=
      match t with
      | '+' :: r => (1, r)
      | '-' :: r => (-1, r)
      | r => (1, r)
    let digits := rest.takeWhile Char.isDigit
    if digits = [] then none else some (sign * digitsVal digits)

/-- String interpolation helper for error messages built from a row key. -/
def rowKeyRender : RowKey → String
  | .int n => toString n
  | .str s => s

/-! ## CompanyService (services/company-service.js) -/

/-- A raw company row as either source may deliver it: every alias the
DTO mapper consults, each an optional JS string (none = field absent). -/
structure RawCompany where
  companyId : Option String := none
  company_id : Option String := none
  companyName : Option String := none
  company_name : Option String := none
  phone : Option String := none
  address : Option String := none
  county : Option String := none
  city : Option String := none
  introduction : Option String := none
  description : Option String := none
  companyType : Option String := none
  company_type : Option String := none
  customerStage : Option String := none
  customer_stage : Option String := none
  engagementRating : Option String := none
  interactionRating : Option String := none
  createdTime : Option String := none
  created_time : Option String := none
  lastUpdateTime : Option String := none
  updatedTime : Option String := none
  updated_time : Option String := none
  creator : Option String := none
  createdBy : Option String := none
  created_by : Option String := none
  lastModifier : Option String := none
  updatedBy : Option String := none
  updated_by : Option String := none
  rowIndex : Option Nat := none
deriving DecidableEq, Repr

/-- The canonical company DTO produced by CompanyService._toServiceDTO. -/
structure CompanyDTO where
  companyId : String
  companyName : String
  phone : String
  address : String
  county : String
  introduction : String
  companyType : String
  customerStage : String
  engagementRating : String
  createdTime : String
  lastUpdateTime : String
  creator : String
  lastModifier : String
  rowIndex : Option Nat
deriving DecidableEq, Repr

/-- CompanyService._toServiceDTO on a non-null raw row: each canonical
field is the first present non-empty alias, else ''; rowIndex is copied
as-is. -/
def toServiceDTO (raw : RawCompany) : CompanyDTO where
  companyId := pickStr [raw.companyId, raw.company_id]
  companyName := pickStr [raw.companyName, raw.company_name]
  phone := pickStr [raw.phone]
  address := pickStr [raw.address]
  county := pickStr [raw.county, raw.city]
  introduction := pickStr [raw.introduction, raw.description]
  companyType := pickStr [raw.companyType, raw.company_type]
  customerStage := pickStr [raw.customerStage, raw.customer_stage]
  engagementRating := pickStr [raw.engagementRating, raw.interactionRating]
  createdTime := pickStr [raw.createdTime, raw.created_time]
  lastUpdateTime := pickStr [raw.lastUpdateTime, raw.updatedTime, raw.updated_time]
  creator := pickStr [raw.creator, raw.createdBy, raw.created_by]
  lastModifier := pickStr [raw.lastModifier, raw.updatedBy, raw.updated_by]
  rowIndex := raw.rowIndex

/-- CompanyService._toServiceDTO including its null guard. -/
def toServiceDTOOpt : Option RawCompany → Option CompanyDTO
  | none => none
  | some raw => some (toServiceDTO raw)

/-- A company DTO viewed again as a raw row, exactly as the JS object
returned by _toServiceDTO presents itself to a second application of the
mapper: canonical keys present (possibly ''), alias keys absent. -/
def dtoAsRaw (d : CompanyDTO) : RawCompany where
  companyId := some d.companyId
  companyName := some d.companyName
  phone := some d.phone
  address := some d.address
  county := some d.county
  introduction := some d.introduction
  companyType := some d.companyType
  customerStage := some d.customerStage
  engagementRating := some d.engagementRating
  createdTime := some d.createdTime
  lastUpdateTime := some d.lastUpdateTime
  creator := some d.creator
  lastModifier := some d.lastModifier
  rowIndex := d.rowIndex

/-- The two data sources CompanyService reads from: companySqlReader
(optional; its call may throw) and the sheet companyReader. -/
structure CompanySrc where
  sql : Option (Except String (List RawCompany))
  sheet : Except String (List RawCompany)

/-- CompanyService._getAllCompanies: try SQL, accept only a non-empty
array, otherwise (throw, empty, or no reader) fall back to the sheet;
a sheet failure is rethrown.  Rows of either source are normalised with
_toServiceDTO. -/
def getAllCompanies (src : CompanySrc) : Except String (List CompanyDTO) :=
  let fromSql : Option (List CompanyDTO) :=
    match src.sql with
    | some (.ok l) => if l.isEmpty then none else some (l.map toServiceDTO)
    | some (.error _) => none
    | none => none
  match fromSql with
  | some companies => .ok companies
  | none =>
    match src.sheet with
    | .ok l => .ok (l.map toServiceDTO)
    | .error e => .error e

/-- CompanyService._getCompanyByName: the falsy-name guard returns null
without touching any source; otherwise find the first company whose
normalised name equals the normalised target. -/
def getCompanyByName (src : CompanySrc) (companyName : String) :
    Except String (Option CompanyDTO) :=
  if companyName = "" then .ok none
  else
    (getAllCompanies src).map fun companies =>
      companies.find? fun c =>
        normalizeCompanyName c.companyName == normalizeCompanyName companyName

/-- JS truthiness of an optional numeric rowIndex field (undefined and
0 are falsy). -/
def rowIdxTruthy : Option Nat → Bool
  | none => false
  | some n => n ≠ 0

/-- Normalised name of a raw sheet row (norm applied to a possibly
absent companyName; JS's norm maps a falsy argument to ''). -/
def normRawName (o : Option String) : String :=
  normalizeCompanyName (o.getD "")

/-- CompanyService._findCompanyRowIndex (v7.7.0 copy of the service,
lines 549-565): force a sheet read, find the row by normalised name,
then fail without a row index, else return it.  It never consults the
SQL reader. -/
def findCompanyRowIndex (src : CompanySrc) (companyName : String) :
    Except String Nat :=
  match src.sheet with
  | .error e => .error e
  | .ok rawList =>
    match rawList.find? fun c =>
        normRawName c.companyName == normalizeCompanyName companyName with
    | none => .error ("找不到公司: " ++ companyName)
    | some target =>
      if rowIdxTruthy target.rowIndex then .ok (target.rowIndex.getD 0)
      else .error "系統錯誤: 無法取得資料行號 (rowIndex missing)"

/-- The payload handed to createCompany: optional companyId/companyName
keys (a spread of companyData after the generated ones lets the payload
override them) plus the remaining opaque columns.  The SQL writer is
modelled as injected (the service throws when it is not) and as
succeeding, echoing the written id. -/
structure CompanyPayload where
  companyId : Option String := none
  companyName : Option String := none
  rest : String := ""
deriving DecidableEq, Repr

/-- The object written by createCompany (companyId and companyName
resolved after the spread). -/
structure CompanyDataToWrite where
  companyId : String
  companyName : String
  rest : String
deriving DecidableEq, Repr

/-- A store-level write call of CompanyService (the Phase 7 SQL writer). -/
inductive CompanyWrite where
  | sqlCreate (data : CompanyDataToWrite) (modifier : String) : CompanyWrite
deriving DecidableEq, Repr

/-- createCompany's result shape: either the early existed-duplicate
response carrying the existing DTO, or the writer's create result
(the writer is modelled as succeeding and echoing the written id). -/
structure CreateCompanyRes where
  success : Bool
  existed : Bool
  id : String
  name : String
  message : String
  data : Option CompanyDTO
deriving DecidableEq, Repr

/-- CompanyService.createCompany (v7.8.0): duplicate check through
_getCompanyByName; on a hit, return the existing record with
existed: true and perform no write; otherwise write
\x7b companyId, companyName, ...companyData \x7d through the SQL writer
(genId stands for the COMP_timestamp_random id generated at the call). -/
def createCompany (src : CompanySrc) (companyName : String)
    (companyData : CompanyPayload) (genId : String) (modifier : String) :
    Except String CreateCompanyRes × List CompanyWrite :=
  match getCompanyByName src companyName with
  | .error e => (.error e, [])
  | .ok (some existing) =>
    (.ok { success := true, existed := true, id := existing.companyId,
           name := existing.companyName, message := "公司已存在",
           data := some existing }, [])
  | .ok none =>
    let dataToWrite : CompanyDataToWrite :=
      { companyId := companyData.companyId.getD genId,
        companyName := companyData.companyName.getD companyName,
        rest := companyData.rest }
    (.ok { success := true, existed := false, id := dataToWrite.companyId,
           name := "", message := "", data := none },
     [.sqlCreate dataToWrite modifier])

/-! ## EventLogService (services/event-log-service.js) -/

/-- An event-log row (string fields use "" for absent, matching JS
truthiness; rowIndex 0 stands for an absent/falsy row index). -/
structure EventLog where
  eventId : String := ""
  id : String := ""
  eventType : String := ""
  eventName : String := ""
  eventContent : String := ""
  createdTime : String := ""
  companyId : String := ""
  opportunityId : String := ""
  rowIndex : Int := 0
deriving DecidableEq, Repr

/-- An event row after getAllEvents' clone-and-join step. -/
structure EventJoined where
  eventId : String
  id : String
  eventType : String
  eventName : String
  eventContent : String
  createdTime : String
  companyId : String
  opportunityId : String
  rowIndex : Int
  opportunityName : String
  companyName : String
deriving DecidableEq, Repr

/-- A minimal opportunity row carrying every field the embedded
operations consult. -/
structure Opp where
  opportunityId : String := ""
  opportunityName : String := ""
  customerCompany : String := ""
  currentStage : String := ""
  currentStatus : String := ""
  assignee : String := ""
  opportunityValue : String := ""
  expectedCloseDate : String := ""
  parentOpportunityId : String := ""
  mainContact : String := ""
  lastUpdateTime : String := ""
  rowIndex : Int := 0
deriving DecidableEq, Repr

/-- A company row as the event-log join consumes it. -/
structure CompRow where
  companyId : String := ""
  companyName : String := ""
deriving DecidableEq, Repr

/-- The readers EventLogService owns: the optional SQL reader (whose
result, when the call does not throw, may be a non-array — modelled as
the inner Option being none) and the sheet reader. -/
structure EventLogSrc where
  sql : Option (Except String (Option (List EventLog)))
  sheet : Except String (List EventLog)

/-- Lookup in a JS Map built from a list of key/value pairs: the last
binding of a key wins. -/
def mapGet (pairs : List (String × String)) (k : String) : Option String :=
  (pairs.reverse.find? fun p => p.fst == k).map Prod.snd

/-- The value || fallback step applied to a Map lookup (a missing key or
an empty stored name both yield the fallback). -/
def mapGetOr (pairs : List (String × String)) (k : String) : String :=
  match mapGet pairs k with
  | some v => if v = "" then k else v
  | none => k

/-- getAllEvents' per-row clone and join: alias id from eventId when id
is falsy; attach opportunityName/companyName when the respective id is
truthy. -/
def eventJoinOne (opps : List Opp) (comps : List CompRow) (raw : EventLog) :
    EventJoined :=
  let oppPairs := opps.map fun o => (o.opportunityId, o.opportunityName)
  let compPairs := comps.map fun c => (c.companyId, c.companyName)
  { eventId := raw.eventId
    id := if raw.id = "" ∧ raw.eventId ≠ "" then raw.eventId else raw.id
    eventType := raw.eventType
    eventName := raw.eventName
    eventContent := raw.eventContent
    createdTime := raw.createdTime
    companyId := raw.companyId
    opportunityId := raw.opportunityId
    rowIndex := raw.rowIndex
    opportunityName :=
      if raw.opportunityId ≠ "" then mapGetOr oppPairs raw.opportunityId else ""
    companyName :=
      if raw.companyId ≠ "" then mapGetOr compPairs raw.companyId else "" }

/-- EventLogService.getAllEvents: serve the SQL reader when it is
injected, does not throw and returns an array (empty included); any
other outcome falls back to the sheet reader.  The surrounding
try/catch turns every remaining error (sheet read, joins) into an
empty list. -/
def getAllEvents (src : EventLogSrc)
    (opps : Except String (List Opp)) (comps : Except String (List CompRow)) :
    List EventJoined :=
  let events : Except String (List EventLog) :=
    match src.sql with
    | some (.ok (some l)) => .ok l
    | some (.ok none) => src.sheet
    | some (.error _) => src.sheet
    | none => src.sheet
  match events, opps, comps with
  | .ok evs, .ok os, .ok cs => evs.map (eventJoinOne os cs)
  | _, _, _ => []

/-- The update payload handed to updateEventLog (String fields, "" for
absent, as everywhere in the event-log model). -/
structure EventUpd where
  eventId : String := ""
  id : String := ""
  eventType : String := ""
  eventName : String := ""
  eventContent : String := ""
  createdTime : String := ""
deriving DecidableEq, Repr

/-- data?.eventId || data?.id || null. -/
def inputIdOf (d : EventUpd) : String :=
  if d.eventId ≠ "" then d.eventId else d.id

/-- Steps 2a/2b of updateEventLog: locate the original record, by
eventId first when the payload carries one, else by the integer row
index the input converts to. -/
def findOriginalEvent (logs : List EventLog) (d : EventUpd) (k : RowKey) :
    Option EventLog :=
  let byId :=
    if inputIdOf d ≠ "" then logs.find? fun l => l.eventId == inputIdOf d
    else none
  match byId with
  | some o => some o
  | none =>
    match jsNumberOfKey k with
    | .int n => logs.find? fun l => l.rowIndex == n
    | _ => none

/-- Step 3 of updateEventLog: resolve the input to an integer row index
(a non-numeric string is looked up as an eventId; a missing hit or a
falsy stored rowIndex raises the not-found error; a non-integer number
raises the invalid-rowIndex error). -/
def resolveEventRow (logs : List EventLog) (k : RowKey) : Except String Int :=
  match k with
  | .int n => .ok n
  | .str s =>
    match jsNumberOfString s with
    | .nan =>
      match logs.find? fun l => l.eventId == s with
      | some target =>
        if target.rowIndex == 0 then
          .error ("Update Failed: Event ID '" ++ s ++ "' not found.")
        else .ok target.rowIndex
      | none => .error ("Update Failed: Event ID '" ++ s ++ "' not found.")
    | .int n => .ok n
    | .nonint => .error "Invalid resolved rowIndex"

/-- The move-branch payload: \x7b ...data \x7d with eventId/id forced to the
original identity and createdTime back-filled from the original when
the update omits it. -/
def movePayload (d : EventUpd) (o : EventLog) : EventUpd :=
  let p := { d with eventId := o.eventId, id := o.eventId }
  if p.createdTime = "" ∧ o.createdTime ≠ "" then
    { p with createdTime := o.createdTime }
  else p

/-- A store-level write call of the event-log writer. -/
inductive EvWrite where
  | delete (rowIndex : Int) (eventType : String) : EvWrite
  | create (payload : EventUpd) (modifier : String) : EvWrite
  | update (rowIndex : Int) (data : EventUpd) (modifier : String) : EvWrite
deriving DecidableEq, Repr

/-- The result shape updateEventLog returns (the writer is modelled as
succeeding; the in-place update result carries no moved flag, i.e.
false). -/
structure EvResult where
  success : Bool
  moved : Bool
deriving DecidableEq, Repr

/-- EventLogService.updateEventLog: read the sheet reader directly
(never the SQL reader), locate the original (id match first, then row
index), resolve the row argument, then either Move (delete under the
original eventType and rowIndex, recreate preserving eventId and
createdTime, flag moved: true) when both eventTypes are present and
differ, or delegate to the plain update-by-row writer. -/
def updateEventLog (src : EventLogSrc) (k : RowKey) (d : EventUpd)
    (modifier : String) : Except String EvResult × List EvWrite :=
  match src.sheet with
  | .error e => (.error e, [])
  | .ok logs =>
    let original := findOriginalEvent logs d k
    match resolveEventRow logs k with
    | .error e => (.error e, [])
    | .ok r =>
      match original with
      | some o =>
        if d.eventType ≠ "" ∧ o.eventType ≠ "" ∧ d.eventType ≠ o.eventType then
          (.ok { success := true, moved := true },
           [.delete o.rowIndex o.eventType, .create (movePayload d o) modifier])
        else (.ok { success := true, moved := false }, [.update r d modifier])
      | none => (.ok { success := true, moved := false }, [.update r d modifier])

/-! ## AnnouncementService (services/announcement-service.js) -/

/-- An announcement row as either reader delivers it (the reader layer
aligns the data contract, so no DTO mapping exists for announcements). -/
structure Ann where
  id : String := ""
  title : String := ""
  status : String := ""
  isPinned : Bool := false
  lastUpdateTime : String := ""
  rowIndex : Option Nat := none
deriving DecidableEq, Repr

/-- AnnouncementService's readers: the optional SQL reader and the
sheet reader. -/
structure AnnSrc where
  sql : Option (Except String (List Ann))
  sheet : Except String (List Ann)

/-- AnnouncementService._fetchInternal: return the SQL reader's data
as-is (empty arrays included, no normalisation) whenever the reader is
injected and the call does not throw; otherwise fall back to the sheet
reader, whose failure propagates. -/
def annFetchInternal (src : AnnSrc) : Except String (List Ann) :=
  match src.sql with
  | some (.ok l) => .ok l
  | some (.error _) => src.sheet
  | none => src.sheet

/-- The update payload for an announcement (opaque columns). -/
structure AnnUpd where
  payload : String := ""
deriving DecidableEq, Repr

/-- A store-level write call of the announcement writer. -/
inductive AnnWrite where
  | update (rowIndex : Nat) (data : AnnUpd) (modifier : String) : AnnWrite
  | delete (rowIndex : Nat) : AnnWrite
deriving DecidableEq, Repr

/-- The writer result shape (modelled as succeeding). -/
structure AnnResult where
  success : Bool
deriving DecidableEq, Repr

/-- The Forbidden message updateAnnouncement raises on a row without a
rowIndex. -/
def annForbiddenUpdateMsg : String :=
  "[Forbidden] 無法更新 SQL 來源的資料 (Missing rowIndex)。請切換回 Sheet 模式或聯絡管理員。"

/-- The Forbidden message deleteAnnouncement raises on a row without a
rowIndex. -/
def annForbiddenDeleteMsg : String :=
  "[Forbidden] 無法刪除 SQL 來源的資料 (Missing rowIndex)。請切換回 Sheet 模式或聯絡管理員。"

/-- AnnouncementService.updateAnnouncement: find the target by id in
the convergent (SQL-first) read, raise not-found, enforce the rowIndex
write protection ([Forbidden]), else update by the target's rowIndex. -/
def updateAnnouncement (src : AnnSrc) (id : String) (data : AnnUpd)
    (modifier : String) : Except String AnnResult × List AnnWrite :=
  match annFetchInternal src with
  | .error e => (.error e, [])
  | .ok allAnns =>
    match allAnns.find? fun a => a.id == id with
    | none => (.error ("找不到公告 ID: " ++ id), [])
    | some target =>
      if rowIdxTruthy target.rowIndex then
        (.ok { success := true },
         [.update (target.rowIndex.getD 0) data modifier])
      else (.error annForbiddenUpdateMsg, [])

/-- AnnouncementService.deleteAnnouncement: same resolution and write
protection as updateAnnouncement, then delete by rowIndex. -/
def deleteAnnouncement (src : AnnSrc) (id : String) :
    Except String AnnResult × List AnnWrite :=
  match annFetchInternal src with
  | .error e => (.error e, [])
  | .ok allAnns =>
    match allAnns.find? fun a => a.id == id with
    | none => (.error ("找不到公告 ID: " ++ id), [])
    | some target =>
      if rowIdxTruthy target.rowIndex then
        (.ok { success := true }, [.delete (target.rowIndex.getD 0)])
      else (.error annForbiddenDeleteMsg, [])

/-! ## OpportunityService (services/opportunity-service.js) -/

/-- OpportunityService's readers: the optional SQL reader and the sheet
reader. -/
structure OppSrc where
  sql : Option (Except String (List Opp))
  sheet : Except String (List Opp)

/-- OpportunityService._fetchOpportunities: with forceSheet the SQL
reader is skipped entirely; otherwise SQL data is served only when the
call does not throw and yields a non-empty array; every fallback reads
the sheet reader, whose failure propagates. -/
def fetchOpportunities (forceSheet : Bool) (src : OppSrc) :
    Except String (List Opp) :=
  let fromSql : Option (List Opp) :=
    if forceSheet then none
    else
      match src.sql with
      | some (.ok l) => if l.isEmpty then none else some l
      | some (.error _) => none
      | none => none
  match fromSql with
  | some l => .ok l
  | none => src.sheet

/-- The target-resolution step of OpportunityService.updateOpportunity
(lines 293-299): a forced sheet read (_fetchOpportunities(true)), then
find the row whose rowIndex equals parseInt(rowIndex), else the
not-found error.  deleteOpportunity resolves identically. -/
def updateOpportunityResolveTarget (src : OppSrc) (k : RowKey) :
    Except String Opp :=
  match fetchOpportunities true src with
  | .error e => .error e
  | .ok opportunities =>
    match opportunities.find? fun o =>
        match parseIntJs k with
        | some n => o.rowIndex == n
        | none => false with
    | some o => .ok o
    | none => .error ("找不到要更新的機會 (Row: " ++ rowKeyRender k ++ ")")

/-! ## The contact-opportunity link table (OpportunityService
getOpportunityDetails and ContactService.getLinkedContacts) -/

/-- A link-table row with every alias either consumer consults; fields
are Option String because safeGet distinguishes absent from ''. -/
structure OppLink where
  opportunityId : Option String := none
  oppId : Option String := none
  opportunity_id : Option String := none
  status : Option String := none
  linkStatus : Option String := none
  state : Option String := none
  contactId : Option String := none
  id : Option String := none
  contact_id : Option String := none
  linkId : Option String := none
  rowId : Option String := none
  rowIndex : Option String := none
deriving DecidableEq, Repr

/-- An official contact row. -/
structure Contact where
  contactId : String := ""
  sourceId : String := ""
  name : String := ""
  companyId : String := ""
  department : String := ""
  position : String := ""
  mobile : String := ""
  phone : String := ""
  email : String := ""
  companyName : String := ""
deriving DecidableEq, Repr

/-- A potential (business-card) contact row. -/
structure PContact where
  name : String := ""
  company : String := ""
  position : String := ""
  driveLink : String := ""
deriving DecidableEq, Repr

/-- normalizeStr of getOpportunityDetails: undefined/null become '',
anything else is String(v).trim(). -/
def normalizeStr : Option String → String
  | none => ""
  | some s => trimStr s

/-- An entry of the linkedContacts list getOpportunityDetails builds:
the joined contact spread together with the resolved linkId. -/
structure LinkedOut where
  contact : Contact
  linkId : Option String
deriving DecidableEq, Repr

/-- The link filter of getOpportunityDetails: keep a link whose
normalised opportunity id is truthy and equals the target, and whose
status is active — where a missing status is treated as active (the
legacy tolerance: isActive is !statusVal || statusVal === 'active'). -/
def oppLinkFilterPred (opportunityId : String) (link : OppLink) : Bool :=
  let linkOppId :=
    normalizeStr (pickOpt [link.opportunityId, link.oppId, link.opportunity_id])
  if linkOppId = "" then false
  else
    let statusVal : String :=
      ⟨lowerList (normalizeStr
        (pickOpt [link.status, link.linkStatus, link.state])).data⟩
    let isActive : Bool := statusVal = "" ∨ statusVal = "active"
    linkOppId == normalizeStr (some opportunityId) && isActive

/-- The link-to-contact join of getOpportunityDetails: resolve the
link's contact id, look the contact up, spread it together with the
resolved linkId; null (dropped by the trailing filter(Boolean)) when
either step fails. -/
def oppLinkMapper (allOfficialContacts : List Contact) (link : OppLink) :
    Option LinkedOut :=
  let linkContactId :=
    normalizeStr (pickOpt [link.contactId, link.id, link.contact_id])
  if linkContactId = "" then none
  else
    match allOfficialContacts.find? fun c =>
        normalizeStr (some c.contactId) == linkContactId with
    | none => none
    | some contact =>
      some { contact := contact,
             linkId := pickOpt [link.linkId, link.id, link.rowId, link.rowIndex] }

/-- The linked-contacts computation of
OpportunityService.getOpportunityDetails (lines 195-215): filter links
by normalised opportunity id and active status, where a missing status
is treated as active (legacy tolerance), then join each link's contact
id against the official contacts, dropping links without a contact id
or matching contact. -/
def oppLinkedContacts (opportunityId : String) (allLinks : List OppLink)
    (allOfficialContacts : List Contact) : List LinkedOut :=
  (allLinks.filter (oppLinkFilterPred opportunityId)).filterMap
    (oppLinkMapper allOfficialContacts)

/-- An entry of ContactService.getLinkedContacts' result. -/
structure ContactOut where
  contactId : String
  sourceId : String
  name : String
  companyId : String
  department : String
  position : String
  mobile : String
  phone : String
  email : String
  companyName : String
  driveLink : String
deriving DecidableEq, Repr

/-- The business-card map lookup of getLinkedContacts: the first
potential contact with truthy name, company and driveLink whose
normalised name|company key matches (first occurrence wins, as in the
Map built with a has-check). -/
def potentialCardLookup (allPotentialContacts : List PContact)
    (name companyName : String) : String :=
  match allPotentialContacts.find? fun pc =>
      pc.name ≠ "" && pc.company ≠ "" && pc.driveLink ≠ "" &&
      (normKey pc.name ++ "|" ++ normKey pc.company ==
        normKey name ++ "|" ++ normKey companyName) with
  | some pc => pc.driveLink
  | none => ""

/-- The contact-id set getLinkedContacts collects: ids of links whose
opportunityId equals the target and whose status is strictly the
string 'active' (an absent status fails the strict equality). -/
def activeLinkedIds (opportunityId : String) (allLinks : List OppLink) :
    List (Option String) :=
  (allLinks.filter fun link =>
    link.opportunityId == some opportunityId && link.status == some "active"
  ).map fun link => link.contactId

/-- ContactService.getLinkedContacts: collect contact ids of links with
opportunityId equal to the target and status strictly equal to
'active', return [] when none, else project the official contacts whose
id is in the set, attaching a driveLink found via the business-card
map. -/
def contactGetLinkedContacts (opportunityId : String)
    (allLinks : List OppLink) (officialContacts : List Contact)
    (allPotentialContacts : List PContact) : List ContactOut :=
  let linkedContactIds : List (Option String) :=
    activeLinkedIds opportunityId allLinks
  if linkedContactIds.isEmpty then []
  else
    (officialContacts.filter fun c =>
      linkedContactIds.contains (some c.contactId)
    ).map fun contact =>
      { contactId := contact.contactId
        sourceId := contact.sourceId
        name := contact.name
        companyId := contact.companyId
        department := contact.department
        position := contact.position
        mobile := contact.mobile
        phone := contact.phone
        email := contact.email
        companyName := contact.companyName
        driveLink :=
          if contact.name ≠ "" ∧ contact.companyName ≠ "" then
            potentialCardLookup allPotentialContacts contact.name
              contact.companyName
          else "" }

/-! ## Lemmas about the normalisation pipeline -/

theorem char_toNat_ofNat_valid (n : Nat) (h : Nat.isValidChar n) :
    (Char.ofNat n).toNat = n := by
  simp [Char.ofNat, h, Char.toNat, Char.ofNatAux, UInt32.toNat, BitVec.toNat_ofNatLt]

theorem jsToLower_idem (c : Char) : jsToLower (jsToLower c) = jsToLower c := by
  by_cases h : 65 ≤ c.toNat ∧ c.toNat ≤ 90
  · have hv : (Char.ofNat (c.toNat + 32)).toNat = c.toNat + 32 :=
      char_toNat_ofNat_valid _ (Or.inl (by omega))
    have h1 : jsToLower c = Char.ofNat (c.toNat + 32) := by
      rw [jsToLower, if_pos h]
    rw [h1, jsToLower, if_neg (by rw [hv]; omega)]
  · have h1 : jsToLower c = c := by rw [jsToLower, if_neg h]
    rw [h1, jsToLower, if_neg h]

theorem mem_of_mem_dropWhile {α : Type} {p : α → Bool} {l : List α} {a : α}
    (h : a ∈ l.dropWhile p) : a ∈ l := by
  rw [← List.takeWhile_append_dropWhile (p := p) (l := l)]
  exact List.mem_append_right _ h

theorem mem_of_mem_takeWhile {α : Type} {p : α → Bool} {l : List α} {a : α}
    (h : a ∈ l.takeWhile p) : a ∈ l := by
  rw [← List.takeWhile_append_dropWhile (p := p) (l := l)]
  exact List.mem_append_left _ h

theorem mem_of_mem_trimList {l : List Char} {a : Char}
    (h : a ∈ trimList l) : a ∈ l := by
  unfold trimList at h
  rw [List.mem_reverse] at h
  have h2 := mem_of_mem_dropWhile h
  rw [List.mem_reverse] at h2
  exact mem_of_mem_dropWhile h2

theorem mem_of_mem_suffixStripF :
    ∀ (fuel : Nat) (l : List Char) (a : Char), a ∈ suffixStripF fuel l → a ∈ l := by
  intro fuel
  induction fuel with
  | zero =>
    intro l a h
    cases l with
    | nil => simp [suffixStripF] at h
    | cons c cs => simpa [suffixStripF] using h
  | succ f ih =>
    intro l a h
    cases l with
    | nil => simp [suffixStripF] at h
    | cons c cs =>
      simp only [suffixStripF] at h
      split_ifs at h with h1 h2 h3
      · exact List.drop_subset _ _ (ih _ _ h)
      · exact List.drop_subset _ _ (ih _ _ h)
      · exact List.drop_subset _ _ (ih _ _ h)
      · rcases List.mem_cons.mp h with rfl | hm
        · exact List.mem_cons_self _ _
        · exact List.mem_cons_of_mem _ (ih _ _ hm)

theorem mem_of_mem_parenStrip {l : List Char} {a : Char}
    (h : a ∈ parenStrip l) : a ∈ l := by
  unfold parenStrip at h
  split at h
  · exact h
  · next x tl heq =>
    split_ifs at h with hc
    · rcases List.mem_append.mp h with hpre | hpost
      · exact mem_of_mem_takeWhile hpre
      · rw [List.mem_reverse] at hpost
        have h2 := mem_of_mem_takeWhile hpost
        rw [List.mem_reverse] at h2
        have h3 : a ∈ x :: tl := List.mem_cons_of_mem _ h2
        rw [← heq] at h3
        exact List.drop_subset _ _ h3
    · exact h

theorem trimList_eq_rdrop (l : List Char) :
    trimList l = List.rdropWhile wsCh (l.dropWhile wsCh) := rfl

theorem dropWhile_head_false {α : Type} {p : α → Bool} {l : List α} {a : α}
    {t : List α} (h : l.dropWhile p = a :: t) : p a = false := by
  induction l with
  | nil => simp [List.dropWhile] at h
  | cons x xs ih =>
    by_cases hx : p x
    · rw [List.dropWhile_cons, if_pos hx] at h
      exact ih h
    · rw [List.dropWhile_cons, if_neg hx] at h
      cases h
      simpa using hx

theorem dropWhile_trimList (l : List Char) :
    (trimList l).dropWhile wsCh = trimList l := by
  rcases hv : trimList l with _ | ⟨a, t⟩
  · simp
  · have hpre : trimList l <+: l.dropWhile wsCh := by
      rw [trimList_eq_rdrop]
      exact List.rdropWhile_prefix wsCh (l.dropWhile wsCh)
    rw [hv] at hpre
    obtain ⟨s, hs⟩ := hpre
    have hcons : l.dropWhile wsCh = a :: (t ++ s) := by
      rw [← hs]; simp
    have ha : wsCh a = false := dropWhile_head_false hcons
    rw [List.dropWhile_cons, if_neg (by simp [ha])]

theorem trimList_idem (l : List Char) : trimList (trimList l) = trimList l := by
  rw [trimList_eq_rdrop (trimList l), dropWhile_trimList, trimList_eq_rdrop l]
  exact List.rdropWhile_idempotent wsCh _

theorem mem_of_mem_normList {l : List Char} {a : Char}
    (h : a ∈ normList l) : a ∈ lowerList l := by
  unfold normList at h
  have h1 := mem_of_mem_parenStrip (mem_of_mem_trimList h)
  unfold suffixStrip at h1
  exact mem_of_mem_trimList (mem_of_mem_suffixStripF _ _ _ h1)

theorem lowerList_normList (l : List Char) :
    lowerList (normList l) = normList l := by
  have hfix : ∀ a ∈ normList l, jsToLower a = a := by
    intro a ha
    obtain ⟨b, _, rfl⟩ := List.mem_map.mp (mem_of_mem_normList ha)
    exact jsToLower_idem b
  calc lowerList (normList l) = (normList l).map id := List.map_congr_left hfix
    _ = normList l := List.map_id _

theorem trimList_normList (l : List Char) :
    trimList (normList l) = normList l := by
  unfold normList
  exact trimList_idem _

theorem pickStr_reapply (v : String) (rest : List (Option String))
    (h : pickStr rest = "") : pickStr (some v :: rest) = v := by
  by_cases hv : v = "" <;> simp [pickStr, hv, h]

theorem toServiceDTO_reapply (r : RawCompany) :
    toServiceDTO (dtoAsRaw (toServiceDTO r)) = toServiceDTO r := by
  simp [toServiceDTO, dtoAsRaw, pickStr_reapply, pickStr]
  and_intros <;> exact fun h => h.symm

theorem normalizeCompanyName_idem_cond (s : String)
    (h1 : suffixStripStr (normalizeCompanyName s) = normalizeCompanyName s)
    (h2 : parenStripStr (normalizeCompanyName s) = normalizeCompanyName s) :
    normalizeCompanyName (normalizeCompanyName s) = normalizeCompanyName s := by
  by_cases hs : s = ""
  · simp [hs, normalizeCompanyName]
  · by_cases hy0 : normalizeCompanyName s = ""
    · rw [hy0]; rfl
    · have hdata : (normalizeCompanyName s).data = normList s.data := by
        rw [normalizeCompanyName, if_neg hs]
      have hl : lowerList (normalizeCompanyName s).data
          = (normalizeCompanyName s).data := by
        rw [hdata]; exact lowerList_normList _
      have ht : trimList (normalizeCompanyName s).data
          = (normalizeCompanyName s).data := by
        rw [hdata]; exact trimList_normList _
      have hsx : suffixStrip (normalizeCompanyName s).data
          = (normalizeCompanyName s).data := by
        have := congrArg String.data h1
        simpa [suffixStripStr] using this
      have hp : parenStrip (normalizeCompanyName s).data
          = (normalizeCompanyName s).data := by
        have := congrArg String.data h2
        simpa [parenStripStr] using this
      conv_lhs => rw [normalizeCompanyName, if_neg hy0]
      rw [normList, hl, ht, hsx, hp, ht]

/-! ## Claims -/

/-- C1 counterexample: the claim asserts that an empty array from the
primary SQL source always yields the fallback source's normalised data.
EventLogService.getAllEvents accepts an empty SQL array (its only check
is Array.isArray) and serves it: with the SQL reader returning [] and
the sheet holding one event, the result is [] and differs from the
sheet-served (fallback) result. -/
theorem eventLog_empty_sql_served_not_fallback :
    getAllEvents
      { sql := some (.ok (some [])),
        sheet := .ok [{ eventId := "E1", eventType := "會議",
                        createdTime := "2026-01-01", rowIndex := 5 }] }
      (.ok []) (.ok []) = []
    ∧ getAllEvents
      { sql := none,
        sheet := .ok [{ eventId := "E1", eventType := "會議",
                        createdTime := "2026-01-01", rowIndex := 5 }] }
      (.ok []) (.ok []) ≠ [] := by
  exact ⟨rfl, by decide⟩

/-- C1 amended: per-service fallback behaviour.  CompanyService:
SQL throw or empty array falls back to the sheet's normalised rows, a
non-empty SQL array is served normalised whatever the sheet source
holds (so the fallback is never consulted).  EventLogService: a thrown
or non-array SQL result falls back to the sheet; an array — empty
included — is served, independent of the sheet.  AnnouncementService:
only a thrown SQL read falls back; SQL data (empty included) is
returned as-is, with no normalisation step. -/
theorem fallback_read_amended :
    (∀ (sheet : Except String (List RawCompany)) (msg : String),
      getAllCompanies { sql := some (.error msg), sheet := sheet } =
        getAllCompanies { sql := none, sheet := sheet })
    ∧ (∀ sheet : Except String (List RawCompany),
      getAllCompanies { sql := some (.ok []), sheet := sheet } =
        getAllCompanies { sql := none, sheet := sheet })
    ∧ (∀ l : List RawCompany,
      getAllCompanies { sql := none, sheet := .ok l } = .ok (l.map toServiceDTO))
    ∧ (∀ (c : RawCompany) (cs : List RawCompany) (sheet : Except String (List RawCompany)),
      getAllCompanies { sql := some (.ok (c :: cs)), sheet := sheet } =
        .ok ((c :: cs).map toServiceDTO))
    ∧ (∀ (l : List EventLog) (sheet : Except String (List EventLog))
        (os : List Opp) (cs : List CompRow),
      getAllEvents { sql := some (.ok (some l)), sheet := sheet } (.ok os) (.ok cs) =
        l.map (eventJoinOne os cs))
    ∧ (∀ (msg : String) (l : List EventLog) (os : List Opp) (cs : List CompRow),
      getAllEvents { sql := some (.error msg), sheet := .ok l } (.ok os) (.ok cs) =
        l.map (eventJoinOne os cs))
    ∧ (∀ (l : List EventLog) (os : List Opp) (cs : List CompRow),
      getAllEvents { sql := some (.ok none), sheet := .ok l } (.ok os) (.ok cs) =
        l.map (eventJoinOne os cs))
    ∧ (∀ (l : List Ann) (sheet : Except String (List Ann)),
      annFetchInternal { sql := some (.ok l), sheet := sheet } = .ok l)
    ∧ (∀ (msg : String) (sheet : Except String (List Ann)),
      annFetchInternal { sql := some (.error msg), sheet := sheet } = sheet) := by
  refine ⟨fun sheet msg => rfl, fun sheet => rfl, fun l => rfl, fun c cs sheet => ?_,
    fun l sheet os cs => rfl, fun msg l os cs => rfl, fun l os cs => rfl,
    fun l sheet => rfl, fun msg sheet => rfl⟩
  simp [getAllCompanies]

/-- C2 counterexample: with the sheet holding E1 (type Meeting, row 5),
the update payload carrying eventId E1 and the different type Call —
every hypothesis of the claim — but the row-key argument being the
unresolvable string 'ZZZ', updateEventLog raises the not-found error
before the move branch: no delete, no create, no moved flag. -/
theorem updateEventLog_found_original_but_errors :
    findOriginalEvent
      [{ eventId := "E1", eventType := "Meeting",
         createdTime := "2026-01-01T00:00:00Z", rowIndex := 5 }]
      { eventId := "E1", eventType := "Call" } (.str "ZZZ")
      = some { eventId := "E1", eventType := "Meeting",
               createdTime := "2026-01-01T00:00:00Z", rowIndex := 5 }
    ∧ updateEventLog
      { sql := none,
        sheet := .ok [{ eventId := "E1", eventType := "Meeting",
                        createdTime := "2026-01-01T00:00:00Z", rowIndex := 5 }] }
      (.str "ZZZ") { eventId := "E1", eventType := "Call" } "mod"
      = (.error "Update Failed: Event ID 'ZZZ' not found.", []) := by
  exact ⟨by decide, rfl⟩

/-- C2 amended: when the original is found, both eventTypes are present
and differ, and additionally the row-key argument resolves to an
integer row (step 3 of the source precedes the move and throws
otherwise), updateEventLog deletes under the original eventType and the
original record's rowIndex, then creates a payload whose eventId is the
original's and whose createdTime is the original's whenever the update
omits it, and returns moved: true. -/
theorem updateEventLog_move_semantics (src : EventLogSrc) (k : RowKey)
    (d : EventUpd) (m : String) (logs : List EventLog) (o : EventLog) (r : Int)
    (hsheet : src.sheet = .ok logs)
    (hfind : findOriginalEvent logs d k = some o)
    (hdt : d.eventType ≠ "") (hot : o.eventType ≠ "")
    (hne : d.eventType ≠ o.eventType)
    (hrow : resolveEventRow logs k = .ok r) :
    updateEventLog src k d m =
      (.ok { success := true, moved := true },
       [.delete o.rowIndex o.eventType, .create (movePayload d o) m])
    ∧ (movePayload d o).eventId = o.eventId
    ∧ (d.createdTime = "" → (movePayload d o).createdTime = o.createdTime) := by
  refine ⟨?_, ?_, ?_⟩
  · unfold updateEventLog
    rw [hsheet]
    simp only [hfind, hrow]
    rw [if_pos ⟨hdt, hot, hne⟩]
  · simp only [movePayload]
    split <;> rfl
  · intro hdc
    simp only [movePayload]
    split
    · rfl
    · next h =>
      simp only [hdc] at h ⊢
      simp at h
      simp [h]

/-- C2 witness: the spec's event-move scenario — E1/Meeting/row 5,
created 2026-01-01, updated with eventType Call and no createdTime —
yields delete(5, Meeting) then create carrying eventId E1 and the
original createdTime, flagged moved: true. -/
theorem updateEventLog_move_semantics_witness :
    updateEventLog
      { sql := none,
        sheet := .ok [{ eventId := "E1", eventType := "Meeting",
                        createdTime := "2026-01-01T00:00:00Z", rowIndex := 5 }] }
      (.int 5) { eventType := "Call" } "mod"
    = (.ok { success := true, moved := true },
       [.delete 5 "Meeting",
        .create { eventId := "E1", id := "E1", eventType := "Call",
                  createdTime := "2026-01-01T00:00:00Z" } "mod"]) := by
  have h := updateEventLog_move_semantics
    { sql := none,
      sheet := .ok [{ eventId := "E1", eventType := "Meeting",
                      createdTime := "2026-01-01T00:00:00Z", rowIndex := 5 }] }
    (.int 5) { eventType := "Call" } "mod"
    [{ eventId := "E1", eventType := "Meeting",
       createdTime := "2026-01-01T00:00:00Z", rowIndex := 5 }]
    { eventId := "E1", eventType := "Meeting",
      createdTime := "2026-01-01T00:00:00Z", rowIndex := 5 }
    5 rfl (by decide) (by decide) (by decide) (by decide) (by decide)
  exact h.1.trans (by decide)

/-- C3 (confirmed): for announcements — the write store addresses rows
by sheet rowIndex — an update or delete whose resolved target lacks a
truthy rowIndex raises the [Forbidden] error and performs no store-level
write call; it never silently no-ops. -/
theorem announcement_write_protection (src : AnnSrc) (id : String)
    (d : AnnUpd) (m : String) (anns : List Ann) (target : Ann)
    (hfetch : annFetchInternal src = .ok anns)
    (hfind : anns.find? (fun a => a.id == id) = some target)
    (hrow : rowIdxTruthy target.rowIndex = false) :
    updateAnnouncement src id d m = (.error annForbiddenUpdateMsg, [])
    ∧ deleteAnnouncement src id = (.error annForbiddenDeleteMsg, []) := by
  constructor
  · unfold updateAnnouncement
    rw [hfetch]
    simp [hfind, hrow]
  · unfold deleteAnnouncement
    rw [hfetch]
    simp [hfind, hrow]

/-- C3 witness: an SQL-resident announcement A1 (no rowIndex) — update
and delete both answer [Forbidden] with an empty write trace. -/
theorem announcement_write_protection_witness :
    updateAnnouncement { sql := none, sheet := .ok [{ id := "A1" }] }
      "A1" { payload := "p" } "mod" = (.error annForbiddenUpdateMsg, [])
    ∧ deleteAnnouncement { sql := none, sheet := .ok [{ id := "A1" }] }
      "A1" = (.error annForbiddenDeleteMsg, []) :=
  announcement_write_protection
    { sql := none, sheet := .ok [{ id := "A1" }] } "A1" { payload := "p" }
    "mod" [{ id := "A1" }] { id := "A1" } rfl (by decide) (by decide)

/-- C4 counterexample: announcements are spreadsheet-write-authority
(their writer is addressed by sheet rowIndex), yet updateAnnouncement
resolves the target row from the SQL-first convergent read, not from a
forced sheet read: with the SQL source serving A1 at rowIndex 7 while
the sheet holds A1 at rowIndex 9, the write goes to row 7; the pure
sheet read would have resolved row 9. -/
theorem announcement_rowIndex_resolved_from_sql :
    updateAnnouncement
      { sql := some (.ok [{ id := "A1", rowIndex := some 7 }]),
        sheet := .ok [{ id := "A1", rowIndex := some 9 }] }
      "A1" { payload := "p" } "mod"
      = (.ok { success := true }, [.update 7 { payload := "p" } "mod"])
    ∧ updateAnnouncement
      { sql := none, sheet := .ok [{ id := "A1", rowIndex := some 9 }] }
      "A1" { payload := "p" } "mod"
      = (.ok { success := true }, [.update 9 { payload := "p" } "mod"]) := by
  exact ⟨rfl, rfl⟩

/-- C4 amended: the row-index resolutions cited by the claim do read
the sheet alone — a forced-fallback read returns exactly the sheet
source, and the opportunity-update target resolution, the company
row-index lookup and the event-log update are all invariant under any
change of the SQL reader.  (Announcement update/delete, by contrast,
resolve their row from the SQL-first read — see the counterexample.) -/
theorem row_resolution_forced_sheet :
    (∀ src : OppSrc, fetchOpportunities true src = src.sheet)
    ∧ (∀ (src : OppSrc) (sql' : Option (Except String (List Opp))) (k : RowKey),
      updateOpportunityResolveTarget { sql := sql', sheet := src.sheet } k =
        updateOpportunityResolveTarget src k)
    ∧ (∀ (src : CompanySrc) (sql' : Option (Except String (List RawCompany)))
        (n : String),
      findCompanyRowIndex { sql := sql', sheet := src.sheet } n =
        findCompanyRowIndex src n)
    ∧ (∀ (src : EventLogSrc)
        (sql' : Option (Except String (Option (List EventLog))))
        (k : RowKey) (d : EventUpd) (m : String),
      updateEventLog { sql := sql', sheet := src.sheet } k d m =
        updateEventLog src k d m) :=
  ⟨fun _ => rfl, fun _ _ _ => rfl, fun _ _ _ => rfl, fun _ _ _ _ _ => rfl⟩

/-- C5 counterexample: the claim says a fallback-read failure after an
SQL soft failure propagates to the caller of every entity read.
EventLogService.getAllEvents wraps its whole body — the sheet fallback
included — in a try/catch that returns []: with both sources throwing
it answers the empty list (the embedding's total return type mirrors
that catch-all), converting the hard failure into an empty result
instead of propagating it. -/
theorem eventLog_hard_failure_swallowed :
    getAllEvents { sql := some (.error "sql down"), sheet := .error "sheet down" }
      (.ok []) (.ok []) = [] := rfl

/-- C5 amended: CompanyService._getAllCompanies does propagate the
sheet failure after every soft SQL failure (reader missing, call
throwing, empty array); EventLogService.getAllEvents instead swallows
it and returns the empty list. -/
theorem hard_failure_propagation_amended :
    (∀ e : String, getAllCompanies { sql := none, sheet := .error e } = .error e)
    ∧ (∀ e msg : String,
      getAllCompanies { sql := some (.error msg), sheet := .error e } = .error e)
    ∧ (∀ e : String,
      getAllCompanies { sql := some (.ok []), sheet := .error e } = .error e)
    ∧ (∀ (e : String) (os : Except String (List Opp))
        (cs : Except String (List CompRow)),
      getAllEvents { sql := none, sheet := .error e } os cs = [])
    ∧ (∀ (e msg : String) (os : Except String (List Opp))
        (cs : Except String (List CompRow)),
      getAllEvents { sql := some (.error msg), sheet := .error e } os cs = []) := by
  refine ⟨fun e => rfl, fun e msg => rfl, fun e => rfl, fun e os cs => ?_,
    fun e msg os cs => ?_⟩
  · cases os <;> cases cs <;> rfl
  · cases os <;> cases cs <;> rfl

/-- C6 counterexample: with an empty sheet, the integer input 999
matches no record, yet updateEventLog surfaces no NotFound error — it
passes the unresolved row index straight to the writer's update
primitive (the source comments this as keeping the old behaviour and
leaving the error to the writer). -/
theorem updateEventLog_unresolved_numeric_passthrough :
    updateEventLog { sql := none, sheet := .ok [] } (.int 999)
      { eventName := "x" } "mod"
    = (.ok { success := true, moved := false },
       [.update 999 { eventName := "x" } "mod"]) := rfl

/-- C6 amended: the id-based match is tried first and wins whenever the
payload carries an id that matches; without a usable id the input's
integer value is matched against rowIndex; but when neither resolves,
a NotFound error is surfaced only for a non-numeric string input that
matches no eventId — a numeric input is passed through to the writer
(see the counterexample). -/
theorem updateEventLog_resolution_order :
    (∀ (logs : List EventLog) (d : EventUpd) (k : RowKey) (o : EventLog),
      inputIdOf d ≠ "" →
      logs.find? (fun l => l.eventId == inputIdOf d) = some o →
      findOriginalEvent logs d k = some o)
    ∧ (∀ (logs : List EventLog) (d : EventUpd) (k : RowKey),
      inputIdOf d = "" →
      findOriginalEvent logs d k =
        (match jsNumberOfKey k with
         | .int n => logs.find? fun l => l.rowIndex == n
         | _ => none))
    ∧ (∀ (src : EventLogSrc) (logs : List EventLog) (d : EventUpd)
        (m s : String),
      src.sheet = .ok logs →
      jsNumberOfString s = .nan →
      (logs.find? fun l => l.eventId == s) = none →
      updateEventLog src (.str s) d m =
        (.error ("Update Failed: Event ID '" ++ s ++ "' not found."), [])) := by
  refine ⟨?_, ?_, ?_⟩
  · intro logs d k o hid hfound
    unfold findOriginalEvent
    rw [if_pos hid, hfound]
  · intro logs d k hid
    unfold findOriginalEvent
    rw [if_neg (by simp [hid])]
  · intro src logs d m s hsheet hnan hnone
    unfold updateEventLog
    rw [hsheet]
    have hres : resolveEventRow logs (.str s) =
        .error ("Update Failed: Event ID '" ++ s ++ "' not found.") := by
      simp only [resolveEventRow, hnan, hnone]
    simp only [hres]

/-- C6 witness: instantiating each branch — an id match beating a
row-index-shaped input, a pure row-index match, and the NotFound error
for a non-numeric, non-matching string. -/
theorem updateEventLog_resolution_order_witness :
    findOriginalEvent
      [{ eventId := "E1", rowIndex := 5 }, { eventId := "E2", rowIndex := 7 }]
      { eventId := "E2" } (.int 5)
      = some { eventId := "E2", rowIndex := 7 }
    ∧ findOriginalEvent [{ eventId := "E1", rowIndex := 5 }] {} (.int 5)
      = some { eventId := "E1", rowIndex := 5 }
    ∧ updateEventLog { sql := none, sheet := .ok [] } (.str "NOPE") {} "mod"
      = (.error "Update Failed: Event ID 'NOPE' not found.", []) := by
  refine ⟨?_, ?_, ?_⟩
  · exact updateEventLog_resolution_order.1 _ _ _ _ (by decide) (by decide)
  · exact (updateEventLog_resolution_order.2.1 _ {} (.int 5) (by decide)).trans
      (by decide)
  · exact updateEventLog_resolution_order.2.2 _ [] {} "mod" "NOPE" rfl
      (by decide) (by decide)

/-- C7 counterexample: the company-name normalisation is not
idempotent — on 公公司司 one suffix-removal pass glues the remaining
公 and 司 into a fresh 公司, which a second pass removes:
normalize('公公司司') = '公司' but normalize('公司') = ''. -/
theorem normalizeCompanyName_not_idempotent :
    normalizeCompanyName (normalizeCompanyName "公公司司")
      ≠ normalizeCompanyName "公公司司" := by decide

/-- C7 amended: the record-level DTO mapping is idempotent — remapping
a mapped row reproduces it exactly (null rows included); the
company-name normalisation is idempotent only on inputs whose
normalised form is a fixed point of the suffix and parenthesis removal
stages (the counterexample's suffix re-formation is exactly what the
condition excludes). -/
theorem normalization_idempotence_amended :
    (∀ ro : Option RawCompany,
      toServiceDTOOpt ((toServiceDTOOpt ro).map dtoAsRaw) = toServiceDTOOpt ro)
    ∧ (∀ s : String,
      suffixStripStr (normalizeCompanyName s) = normalizeCompanyName s →
      parenStripStr (normalizeCompanyName s) = normalizeCompanyName s →
      normalizeCompanyName (normalizeCompanyName s) = normalizeCompanyName s) := by
  constructor
  · intro ro
    cases ro with
    | none => rfl
    | some r =>
      show some (toServiceDTO (dtoAsRaw (toServiceDTO r))) = some (toServiceDTO r)
      exact congrArg some (toServiceDTO_reapply r)
  · exact normalizeCompanyName_idem_cond

/-- C7 witness: the DTO idempotence at a mixed-alias raw row, and the
conditional name idempotence at 台灣科技(Taiwan), whose normalised form
台灣科技 is suffix- and parenthesis-free. -/
theorem normalization_idempotence_amended_witness :
    toServiceDTOOpt
      ((toServiceDTOOpt (some { companyName := some "台灣科技",
                                city := some "新竹",
                                updatedBy := some "amy",
                                rowIndex := some 3 })).map dtoAsRaw)
      = toServiceDTOOpt (some { companyName := some "台灣科技",
                                city := some "新竹",
                                updatedBy := some "amy",
                                rowIndex := some 3 })
    ∧ normalizeCompanyName (normalizeCompanyName "台灣科技(Taiwan)")
      = normalizeCompanyName "台灣科技(Taiwan)" :=
  ⟨normalization_idempotence_amended.1 _,
   normalization_idempotence_amended.2 "台灣科技(Taiwan)" (by decide) (by decide)⟩

/-- C8 counterexample: '' and 公司 normalise to the same value (both
''), yet a lookup by '' answers null through the falsy-name guard while
a lookup by 公司 finds the company named 公司 — so equal normal forms do
not imply equal lookup results. -/
theorem companyLookup_empty_name_breaks_join :
    normalizeCompanyName "" = normalizeCompanyName "公司"
    ∧ getCompanyByName
      { sql := none,
        sheet := .ok [{ companyId := some "C9", companyName := some "公司" }] } ""
      ≠ getCompanyByName
      { sql := none,
        sheet := .ok [{ companyId := some "C9", companyName := some "公司" }] }
      "公司" := by
  exact ⟨by decide, by decide⟩

/-- C8 amended: for non-empty name strings the join is symmetric — two
names with the same normal form give identical lookup results against
any source — and the spec scenario holds: both spellings normalise to
台灣科技, and the company created as 台灣科技股份有限公司 is found when
queried as 台灣科技(Taiwan). -/
theorem company_name_join_amended :
    (∀ (src : CompanySrc) (n1 n2 : String), n1 ≠ "" → n2 ≠ "" →
      normalizeCompanyName n1 = normalizeCompanyName n2 →
      getCompanyByName src n1 = getCompanyByName src n2)
    ∧ normalizeCompanyName "台灣科技股份有限公司" = "台灣科技"
    ∧ normalizeCompanyName "台灣科技(Taiwan)" = "台灣科技"
    ∧ getCompanyByName
      { sql := none,
        sheet := .ok [{ companyId := some "C1",
                        companyName := some "台灣科技股份有限公司" }] }
      "台灣科技(Taiwan)"
      = .ok (some (toServiceDTO { companyId := some "C1",
                                  companyName := some "台灣科技股份有限公司" })) := by
  refine ⟨?_, by decide, by decide, by decide⟩
  intro src n1 n2 h1 h2 heq
  unfold getCompanyByName
  rw [if_neg h1, if_neg h2, heq]

/-- C8 witness: the symmetry applied to the two scenario spellings over
a one-company source. -/
theorem company_name_join_amended_witness :
    getCompanyByName
      { sql := none,
        sheet := .ok [{ companyId := some "C1",
                        companyName := some "台灣科技股份有限公司" }] }
      "台灣科技股份有限公司"
      = getCompanyByName
      { sql := none,
        sheet := .ok [{ companyId := some "C1",
                        companyName := some "台灣科技股份有限公司" }] }
      "台灣科技(Taiwan)" :=
  company_name_join_amended.1 _ "台灣科技股份有限公司" "台灣科技(Taiwan)"
    (by decide) (by decide) (by decide)

/-- C9 counterexample: the claim says every linked-contacts computation
treats a status-less link as active.  ContactService.getLinkedContacts
requires status === 'active' strictly: the same link contributes its
contact when its status is 'active' but nothing when the status field
is absent. -/
theorem statusless_link_dropped_by_contactService :
    contactGetLinkedContacts "O1"
      [{ opportunityId := some "O1", contactId := some "C1" }]
      [{ contactId := "C1", name := "N" }] []
    ≠ contactGetLinkedContacts "O1"
      [{ opportunityId := some "O1", contactId := some "C1",
         status := some "active" }]
      [{ contactId := "C1", name := "N" }] [] := by decide

/-- C9 amended: the legacy tolerance lives only in
OpportunityService.getOpportunityDetails — there a link with no status
field contributes exactly as one with status 'active' —
while ContactService.getLinkedContacts admits only links whose status
is strictly 'active': pre-filtering its links to those never changes
its result (status-less links contribute nothing). -/
theorem linked_contacts_status_tolerance_amended :
    (∀ (oppId : String) (contacts : List Contact) (l : OppLink)
        (rest : List OppLink),
      l.status = none → l.linkStatus = none → l.state = none →
      oppLinkedContacts oppId (l :: rest) contacts =
        oppLinkedContacts oppId ({ l with status := some "active" } :: rest)
          contacts)
    ∧ (∀ (oppId : String) (links : List OppLink) (contacts : List Contact)
        (pcs : List PContact),
      contactGetLinkedContacts oppId
          (links.filter fun l => l.status == some "active") contacts pcs =
        contactGetLinkedContacts oppId links contacts pcs) := by
  constructor
  · intro oppId contacts l rest hs hl hst
    have hpred : oppLinkFilterPred oppId { l with status := some "active" } =
        oppLinkFilterPred oppId l := by
      simp only [oppLinkFilterPred, hs, hl, hst]
      have h1 : (⟨lowerList (normalizeStr
          (pickOpt [some "active", none, none])).data⟩ : String) = "active" := by
        decide
      have h2 : (⟨lowerList (normalizeStr
          (pickOpt ([none, none, none] : List (Option String)))).data⟩ : String)
          = "" := by decide
      rw [h1, h2]
      simp
    unfold oppLinkedContacts
    rw [List.filter_cons, List.filter_cons, hpred]
    cases h : oppLinkFilterPred oppId l
    · simp [h]
    · simp only [h, if_true]
      rfl
  · intro oppId links contacts pcs
    have hids : activeLinkedIds oppId
        (links.filter fun l => l.status == some "active") =
        activeLinkedIds oppId links := by
      unfold activeLinkedIds
      congr 1
      rw [List.filter_filter]
      apply List.filter_congr
      intro a _
      cases h1 : (a.opportunityId == some oppId) <;>
        cases h2 : (a.status == some "active") <;> simp [h1, h2]
    unfold contactGetLinkedContacts
    rw [hids]

/-- C9 witness: one status-less link — getOpportunityDetails' filter
yields the same joined contact as the explicit 'active' version, and
the getLinkedContacts pre-filter identity at the same input. -/
theorem linked_contacts_status_tolerance_amended_witness :
    oppLinkedContacts "O1"
      [{ opportunityId := some "O1", contactId := some "C1" }]
      [{ contactId := "C1", name := "N" }]
      = oppLinkedContacts "O1"
        [{ opportunityId := some "O1", contactId := some "C1",
           status := some "active" }]
        [{ contactId := "C1", name := "N" }]
    ∧ contactGetLinkedContacts "O1"
      ([({ opportunityId := some "O1", contactId := some "C1" } : OppLink)].filter
        fun l => l.status == some "active")
      [{ contactId := "C1", name := "N" }] []
      = contactGetLinkedContacts "O1"
        [{ opportunityId := some "O1", contactId := some "C1" }]
        [{ contactId := "C1", name := "N" }] [] :=
  ⟨linked_contacts_status_tolerance_amended.1 "O1"
      [{ contactId := "C1", name := "N" }]
      { opportunityId := some "O1", contactId := some "C1" } [] rfl rfl rfl,
   linked_contacts_status_tolerance_amended.2 "O1"
      [{ opportunityId := some "O1", contactId := some "C1" }]
      [{ contactId := "C1", name := "N" }] []⟩

/-- C10 counterexample: creating with the empty-string name while a
company whose name normalises identically (公司 normalises to '', as
does '') exists: the falsy-name guard makes the duplicate check miss,
so a store-level create IS performed and the result carries
existed := false — not the claimed duplicate response. -/
theorem createCompany_empty_name_not_deduped :
    normalizeCompanyName "" = normalizeCompanyName "公司"
    ∧ createCompany
      { sql := none,
        sheet := .ok [{ companyId := some "C9", companyName := some "公司" }] }
      "" {} "GEN1" "mod"
      = (.ok { success := true, existed := false, id := "GEN1", name := "",
               message := "", data := none },
         [.sqlCreate { companyId := "GEN1", companyName := "", rest := "" }
           "mod"]) :=
  ⟨by decide, rfl⟩

/-- C10 amended: for a non-empty name, when the convergent read holds a
company whose name normalises like the requested one, createCompany
answers success with existed: true, the existing company's id, name and
data, and performs no store-level create. -/
theorem createCompany_duplicate_amended (src : CompanySrc) (name : String)
    (p : CompanyPayload) (gid m : String) (cs : List CompanyDTO)
    (c : CompanyDTO)
    (hname : name ≠ "")
    (hall : getAllCompanies src = .ok cs)
    (hfind : cs.find? (fun d =>
        normalizeCompanyName d.companyName == normalizeCompanyName name)
      = some c) :
    createCompany src name p gid m =
      (.ok { success := true, existed := true, id := c.companyId,
             name := c.companyName, message := "公司已存在",
             data := some c }, []) := by
  unfold createCompany getCompanyByName
  rw [if_neg hname, hall]
  simp [Except.map, hfind]

/-- C10 witness: a duplicate create against the scenario company —
queried under the other spelling — returns the existing record with
existed: true and an empty write trace. -/
theorem createCompany_duplicate_amended_witness :
    createCompany
      { sql := none,
        sheet := .ok [{ companyId := some "C1",
                        companyName := some "台灣科技股份有限公司" }] }
      "台灣科技(Taiwan)" {} "GEN1" "mod"
      = (.ok { success := true, existed := true, id := "C1",
               name := "台灣科技股份有限公司", message := "公司已存在",
               data := some (toServiceDTO
                 { companyId := some "C1",
                   companyName := some "台灣科技股份有限公司" }) }, []) := by
  have h := createCompany_duplicate_amended
    { sql := none,
      sheet := .ok [{ companyId := some "C1",
                      companyName := some "台灣科技股份有限公司" }] }
    "台灣科技(Taiwan)" {} "GEN1" "mod"
    [toServiceDTO { companyId := some "C1",
                    companyName := some "台灣科技股份有限公司" }]
    (toServiceDTO { companyId := some "C1",
                    companyName := some "台灣科技股份有限公司" })
    (by decide) rfl (by decide)
  exact h.trans (by decide)
